import Mathlib

/-!
Shallow embedding of the qr-restaurant-backend core: the order controller
(createOrder, addItemsToOrder, updateOrderStatus), the table controller
(markTableAsPaid), and the socket.io room layer (join_room handlers and
room-scoped event delivery).  Each definition is translated directly from
the TypeScript source; machine integers are modelled as Int (JavaScript
numbers in minor currency units), fallible operations return an explicit
result constructor, and the database is explicit state threaded through
each operation.
-/

namespace QRBackend

/-- A tenant row (prisma model Tenant): unique id and slug. -/
structure Tenant where
  id : String
  slug : String
deriving DecidableEq, Repr

/-- A product row (prisma model Product): owned by a tenant, with a price in
minor currency units and an availability flag. -/
structure Product where
  id : String
  tenantId : String
  name : String
  price : Int
  isAvailable : Bool
deriving DecidableEq, Repr

/-- An order item row (prisma model OrderItem): product name and unit price are
copied from the Product row at insertion time. -/
structure OrderItem where
  orderId : String
  productName : String
  quantity : Int
  price : Int
  note : Option String
deriving DecidableEq, Repr

/-- An order row (prisma model Order) together with its included items.
The status field is the raw string stored by the controllers:
one of PENDING, CONFIRMED, DONE, CANCELLED. -/
structure Order where
  id : String
  tenantId : String
  tableName : String
  status : String
  total : Int
  items : List OrderItem
deriving DecidableEq, Repr

/-- A table row (prisma model Table): status is ACTIVE or LOCKED. -/
structure Table where
  id : String
  tenantId : String
  name : String
  status : String
deriving DecidableEq, Repr

/-- The relational store visible to the controllers. -/
structure DB where
  tenants : List Tenant
  products : List Product
  orders : List Order
  tables : List Table
deriving DecidableEq, Repr

/-- One item of a createOrder / addItems request body.  The client may supply
a price field; the controllers read only productId, quantity and note. -/
structure ReqItem where
  productId : String
  quantity : Int
  price : Option Int
  note : Option String
deriving DecidableEq, Repr

/-- Payload of a socket.io emission: either a full order (with items) or the
table payload object ``\x7btableId, tableName, tenantId, status\x7d``. -/
inductive Payload where
  | order : Order → Payload
  | table : String → String → String → String → Payload
deriving DecidableEq, Repr

/-- One socket.io emission by a controller.  ``room = some r`` models
``io.to(r).emit`` (delivered to the members of room r); ``room = none``
models ``io.emit`` (global broadcast to every connection). -/
structure Emission where
  room : Option String
  event : String
  payload : Payload
deriving DecidableEq, Repr

/-- socket.io delivery semantics: a connection holding the given room set
receives an emission iff the emission is global or targets one of its rooms. -/
def deliveredTo (e : Emission) (rooms : List String) : Bool :=
  match e.room with
  | none => true
  | some r => rooms.contains r

/-- HTTP-level outcome of a controller call. -/
inductive ApiResult where
  | badRequest : String → ApiResult
  | notFound : String → ApiResult
  | serverError : String → ApiResult
  | okOrder : Order → ApiResult
  | okTable : Table → ApiResult
deriving DecidableEq, Repr

/-- Result of one controller call: the database after the call, the HTTP
outcome, and the socket.io emissions performed (in order).  The io handle is
modelled as installed, since index.ts calls setSocketIO(io) at startup. -/
structure OpResult where
  db : DB
  res : ApiResult
  events : List Emission
deriving DecidableEq, Repr

/-- ``prisma.tenant.findUnique(\x7bwhere: \x7bid\x7d\x7d)``. -/
def findTenant (db : DB) (tenantId : String) : Option Tenant :=
  db.tenants.find? (fun t => t.id == tenantId)

/-- ``prisma.order.findUnique(\x7bwhere: \x7bid\x7d\x7d)`` (items included). -/
def findOrder (db : DB) (id : String) : Option Order :=
  db.orders.find? (fun o => o.id == id)

/-- ``prisma.order.findFirst(\x7bwhere: \x7bid, tenantId\x7d\x7d)``: the ownership check
of updateOrderStatus. -/
def findOrderOwned (db : DB) (id tenantId : String) : Option Order :=
  db.orders.find? (fun o => o.id == id && o.tenantId == tenantId)

/-- ``prisma.table.findFirst(\x7bwhere: \x7bid, tenantId\x7d\x7d)``: the ownership check
of the table controller. -/
def findTableOwned (db : DB) (id tenantId : String) : Option Table :=
  db.tables.find? (fun t => t.id == id && t.tenantId == tenantId)

/-- ``tx.product.findMany(\x7bwhere: \x7bid: \x7bin: productIds\x7d, tenantId,
isAvailable: true\x7d\x7d)``: the products of the owning tenant, flagged available,
whose id is among the requested ids. -/
def availableProducts (db : DB) (productIds : List String) (tenantId : String) :
    List Product :=
  db.products.filter
    (fun p => productIds.contains p.id && p.tenantId == tenantId && p.isAvailable)

/-- ``productMap.get(pid)`` where productMap is keyed by the (unique) product
id over the filtered product list. -/
def productLookup (db : DB) (productIds : List String) (tenantId : String)
    (pid : String) : Option Product :=
  (availableProducts db productIds tenantId).find? (fun p => p.id == pid)

/-- The lookup used by the order controller for a given request:
productIds is ``items.map(item => item.productId)``. -/
def orderLookup (db : DB) (tenantId : String) (items : List ReqItem) :
    String → Option Product :=
  productLookup db (items.map (fun it => it.productId)) tenantId

/-- ``note: item.note || null``: a missing or empty note is stored as null. -/
def normNote (note : Option String) : Option String :=
  match note with
  | none => none
  | some s => if s = "" then none else some s

/-- The per-item validation loop and item construction of the order controller:
for each request item the product is looked up in the filtered product map;
a missing product aborts with the error message
``Product $\x7bitem.productId\x7d not found or not available``, otherwise an
OrderItem is built snapshotting the product name and price from the database. -/
def buildItems (orderId : String) (lookup : String → Option Product) :
    List ReqItem → Except String (List OrderItem)
  | [] => Except.ok []
  | it :: rest =>
    match lookup it.productId with
    | none =>
      Except.error ("Product " ++ it.productId ++ " not found or not available")
    | some p =>
      match buildItems orderId lookup rest with
      | Except.error e => Except.error e
      | Except.ok tail =>
        Except.ok
          ({ orderId := orderId, productName := p.name, quantity := it.quantity,
             price := p.price, note := normNote it.note } :: tail)

/-- createOrder (src/unnamed/part_006, lines 16-103).  Field presence is the
JavaScript truthiness test: an empty tenantId/tableName, an empty items array
or a zero total is treated as missing.  A product validation failure inside
the transaction throws, the transaction aborts, and the outer catch answers
500 Failed to create order; nothing is persisted and nothing is emitted.
On success the order is persisted with status PENDING and the client-supplied
total, and one new_order event goes to the tenant room. -/
def createOrder (db : DB) (newOrderId : String) (tenantId tableName : String)
    (items : List ReqItem) (total : Int) : OpResult :=
  if tenantId = "" ∨ tableName = "" ∨ items = [] ∨ total = 0 then
    { db := db, res := ApiResult.badRequest "Missing required fields", events := [] }
  else
    match findTenant db tenantId with
    | none =>
      { db := db, res := ApiResult.notFound "Restaurant not found", events := [] }
    | some _ =>
      match buildItems newOrderId (orderLookup db tenantId items) items with
      | Except.error _ =>
        { db := db, res := ApiResult.serverError "Failed to create order",
          events := [] }
      | Except.ok orderItems =>
        let order : Order :=
          { id := newOrderId, tenantId := tenantId, tableName := tableName,
            status := "PENDING", total := total, items := orderItems }
        { db := { db with orders := db.orders ++ [order] },
          res := ApiResult.okOrder order,
          events := [⟨some tenantId, "new_order", Payload.order order⟩] }

/-- addItemsToOrder (src/unnamed/part_006, lines 136-230).  An empty items
array or a zero additionalTotal is rejected as missing; a missing order is
404; a non-PENDING order is rejected with the state-conflict message; a
missing or unavailable product is a 400 with the per-product message.  On
success the new items (snapshotting name and price from the database) are
appended, the total is incremented by additionalTotal, and one order_updated
event goes to the owning tenant room. -/
def addItemsToOrder (db : DB) (id : String) (items : List ReqItem)
    (additionalTotal : Int) : OpResult :=
  if items = [] ∨ additionalTotal = 0 then
    { db := db, res := ApiResult.badRequest "Missing required fields", events := [] }
  else
    match findOrder db id with
    | none =>
      { db := db, res := ApiResult.notFound "Order not found", events := [] }
    | some existingOrder =>
      if existingOrder.status ≠ "PENDING" then
        { db := db,
          res := ApiResult.badRequest
            "Cannot add items to order. Order status is not PENDING",
          events := [] }
      else
        match buildItems id (orderLookup db existingOrder.tenantId items) items with
        | Except.error msg =>
          { db := db, res := ApiResult.badRequest msg, events := [] }
        | Except.ok newItems =>
          let updatedOrder : Order :=
            { existingOrder with
              total := existingOrder.total + additionalTotal,
              items := existingOrder.items ++ newItems }
          { db := { db with
              orders := db.orders.map (fun o => if o.id = id then updatedOrder else o) },
            res := ApiResult.okOrder updatedOrder,
            events := [⟨some existingOrder.tenantId, "order_updated",
                        Payload.order updatedOrder⟩] }

/-- The status whitelist of updateOrderStatus. -/
def validStatuses : List String := ["PENDING", "CONFIRMED", "DONE", "CANCELLED"]

/-- updateOrderStatus (src/unnamed/part_006, lines 264-309).  The only status
validation is membership in validStatuses; the order is located by id AND
tenant ownership; the status is then overwritten unconditionally (no
transition check against the current status), and the order_updated event is
emitted via ``io.emit`` - a global broadcast to every connection, not scoped
to any room. -/
def updateOrderStatus (db : DB) (id status tenantId : String) : OpResult :=
  if status = "" ∨ status ∉ validStatuses then
    { db := db,
      res := ApiResult.badRequest
        "Invalid status. Must be one of: PENDING, CONFIRMED, DONE, CANCELLED",
      events := [] }
  else
    match findOrderOwned db id tenantId with
    | none =>
      { db := db, res := ApiResult.notFound "Order not found", events := [] }
    | some order =>
      let updatedOrder : Order := { order with status := status }
      { db := { db with
          orders := db.orders.map (fun o => if o.id = id then updatedOrder else o) },
        res := ApiResult.okOrder updatedOrder,
        events := [⟨none, "order_updated", Payload.order updatedOrder⟩] }

/-- markTableAsPaid (src/src/controllers/tableController.ts, lines 158-218).
The table is located by id AND tenant ownership (404 otherwise, unchanged);
its status is set to LOCKED; then table_paid and table_status_changed are
each emitted to the tenant room and to the guest room of that tenant. -/
def markTableAsPaid (db : DB) (id tenantId : String) : OpResult :=
  match findTableOwned db id tenantId with
  | none =>
    { db := db, res := ApiResult.notFound "Table not found", events := [] }
  | some table =>
    let updatedTable : Table := { table with status := "LOCKED" }
    let payload := Payload.table id table.name tenantId "LOCKED"
    { db := { db with
        tables := db.tables.map (fun t => if t.id = id then updatedTable else t) },
      res := ApiResult.okTable updatedTable,
      events :=
        [⟨some tenantId, "table_paid", payload⟩,
         ⟨some ("guest:" ++ tenantId), "table_paid", payload⟩,
         ⟨some tenantId, "table_status_changed", payload⟩,
         ⟨some ("guest:" ++ tenantId), "table_status_changed", payload⟩] }

/-- A live socket connection: socket.data as set by socketAuthMiddleware
(authenticated flag and tenant binding), the set of joined rooms, and a
connected flag (a handler that never disconnects leaves it untouched). -/
structure Conn where
  id : String
  authenticated : Bool
  tenantId : Option String
  rooms : List String
  connected : Bool
deriving DecidableEq, Repr

/-- An event emitted back to the requesting connection itself
(``socket.emit("error", \x7bmessage\x7d)``). -/
structure SocketMsg where
  event : String
  message : String
deriving DecidableEq, Repr

/-- ``socket.join(room)``: room sets are socket.io Sets, so joining an
already-joined room is idempotent. -/
def joinRoom (rooms : List String) (r : String) : List String :=
  if r ∈ rooms then rooms else rooms ++ [r]

/-- join_room handler of the socket-authenticated server
(src/unnamed/part_010, lines 164-185): rejects an unauthenticated connection
with an error event, rejects a tenantId different from the connection
identity with an error event, and only then joins the tenant room.  Neither
rejection disconnects the socket. -/
def joinRoomAuth (c : Conn) (tenantId : String) : Conn × List SocketMsg :=
  if c.authenticated = false then
    (c, [{ event := "error",
           message := "Authentication required to join tenant room" }])
  else if c.tenantId ≠ some tenantId then
    (c, [{ event := "error", message := "Cannot join another tenant\x27s room" }])
  else
    ({ c with rooms := joinRoom c.rooms tenantId }, [])

/-- join_room handler of the legacy server (src/src/index.ts, lines 116-121):
``if (tenantId) socket.join(tenantId)`` - any connection supplying a
non-empty tenantId is joined to that room, with no authentication or
ownership check and no error event. -/
def joinRoomLegacy (c : Conn) (tenantId : String) : Conn × List SocketMsg :=
  if tenantId = "" then
    (c, [])
  else
    ({ c with rooms := joinRoom c.rooms tenantId }, [])

/-- Projects the order out of a successful controller result. -/
def resultOrder : ApiResult → Option Order
  | ApiResult.okOrder o => some o
  | _ => none

/-- The product-derived total of an item list: the sum of unit price times
quantity over the items. -/
def itemsTotal (items : List OrderItem) : Int :=
  (items.map (fun i => i.price * i.quantity)).sum

/-- Overwrites the client-supplied price field of a request item; the
controllers never read that field. -/
def setClientPrice (q : Option Int) (it : ReqItem) : ReqItem :=
  { it with price := q }

/-- Fixture: two tenants, one available product of tenant t1 (price 8500),
one PENDING order of t1, one table of t1. -/
def demoDB : DB :=
  { tenants := [⟨"t1", "pho-one"⟩, ⟨"t2", "pho-two"⟩],
    products := [⟨"p1", "t1", "Spring Rolls", 8500, true⟩],
    orders := [⟨"o1", "t1", "Table 1", "PENDING", 8500,
                [⟨"o1", "Spring Rolls", 1, 8500, none⟩]⟩],
    tables := [⟨"tb1", "t1", "X", "ACTIVE"⟩] }

/-- Fixture: demoDB with the order in terminal status DONE. -/
def doneDB : DB :=
  { demoDB with
    orders := [⟨"o1", "t1", "Table 1", "DONE", 8500,
                [⟨"o1", "Spring Rolls", 1, 8500, none⟩]⟩] }

/-- Fixture: demoDB with the order in status CONFIRMED. -/
def confirmedDB : DB :=
  { demoDB with
    orders := [⟨"o1", "t1", "Table 1", "CONFIRMED", 8500,
                [⟨"o1", "Spring Rolls", 1, 8500, none⟩]⟩] }

/-- Fixture: an unauthenticated guest connection joined to no room. -/
def guestConn : Conn :=
  { id := "sock-1", authenticated := false, tenantId := none, rooms := [],
    connected := true }

theorem productLookup_spec {db : DB} {pids : List String} {tid pid : String}
    {p : Product} (h : productLookup db pids tid pid = some p) :
    p ∈ db.products ∧ p.tenantId = tid ∧ p.isAvailable = true := by
  unfold productLookup availableProducts at h
  have hmem := List.mem_of_find?_eq_some h
  rw [List.mem_filter] at hmem
  obtain ⟨hp, hcond⟩ := hmem
  simp only [Bool.and_eq_true, beq_iff_eq] at hcond
  exact ⟨hp, hcond.1.2, hcond.2⟩

theorem buildItems_error_of_missing {oid : String} {lookup : String → Option Product}
    {l : List ReqItem} (h : ∃ it ∈ l, lookup it.productId = none) :
    ∃ msg, buildItems oid lookup l = Except.error msg := by
  induction l with
  | nil => simp at h
  | cons it rest ih =>
    cases hl : lookup it.productId with
    | none =>
      exact ⟨"Product " ++ it.productId ++ " not found or not available",
        by rw [buildItems, hl]⟩
    | some p =>
      obtain ⟨a, ha, hnone⟩ := h
      rcases List.mem_cons.mp ha with rfl | hmem
      · rw [hl] at hnone; exact absurd hnone (by simp)
      · obtain ⟨msg, hmsg⟩ := ih ⟨a, hmem, hnone⟩
        exact ⟨msg, by rw [buildItems, hl, hmsg]⟩

theorem buildItems_ok_of_all_found {oid : String} {lookup : String → Option Product}
    {l : List ReqItem} (h : ∀ it ∈ l, (lookup it.productId).isSome) :
    ∃ out, buildItems oid lookup l = Except.ok out ∧ out.length = l.length := by
  induction l with
  | nil => exact ⟨[], rfl, rfl⟩
  | cons it rest ih =>
    have h1 := h it (List.mem_cons_self it rest)
    cases hl : lookup it.productId with
    | none => rw [hl] at h1; simp at h1
    | some p =>
      obtain ⟨out, hout, hlen⟩ := ih (fun a ha => h a (List.mem_cons_of_mem _ ha))
      refine ⟨{ orderId := oid, productName := p.name, quantity := it.quantity,
                price := p.price, note := normNote it.note } :: out, ?_, ?_⟩
      · rw [buildItems, hl, hout]
      · simp [hlen]

theorem buildItems_ok_length {oid : String} {lookup : String → Option Product} :
    ∀ {l : List ReqItem} {out : List OrderItem},
      buildItems oid lookup l = Except.ok out → out.length = l.length := by
  intro l
  induction l with
  | nil => intro out h; simp [buildItems] at h; simp [← h]
  | cons it rest ih =>
    intro out h
    cases hl : lookup it.productId with
    | none => rw [buildItems, hl] at h; exact absurd h (by simp)
    | some p =>
      rw [buildItems, hl] at h
      cases hr : buildItems oid lookup rest with
      | error e => rw [hr] at h; exact absurd h (by simp)
      | ok tail =>
        rw [hr] at h
        have := ih hr
        simp only [Except.ok.injEq] at h
        rw [← h]
        simp [this]

theorem buildItems_ok_mem {oid : String} {lookup : String → Option Product} :
    ∀ {l : List ReqItem} {out : List OrderItem},
      buildItems oid lookup l = Except.ok out →
      ∀ itm ∈ out, ∃ pid p, lookup pid = some p ∧
        itm.productName = p.name ∧ itm.price = p.price := by
  intro l
  induction l with
  | nil =>
    intro out h itm hitm
    simp [buildItems] at h
    rw [h] at hitm
    exact absurd hitm (by simp)
  | cons it rest ih =>
    intro out h itm hitm
    cases hl : lookup it.productId with
    | none => rw [buildItems, hl] at h; exact absurd h (by simp)
    | some p =>
      rw [buildItems, hl] at h
      cases hr : buildItems oid lookup rest with
      | error e => rw [hr] at h; exact absurd h (by simp)
      | ok tail =>
        rw [hr] at h
        simp only [Except.ok.injEq] at h
        rw [← h] at hitm
        rcases List.mem_cons.mp hitm with rfl | hmem
        · exact ⟨it.productId, p, hl, rfl, rfl⟩
        · exact ih hr itm hmem

theorem map_productId_setClientPrice (q : Option Int) (l : List ReqItem) :
    (l.map (setClientPrice q)).map (fun it => it.productId)
      = l.map (fun it => it.productId) := by
  induction l with
  | nil => rfl
  | cons a l ih => simp [ih, setClientPrice]

theorem buildItems_map_setClientPrice (oid : String) (lookup : String → Option Product)
    (q : Option Int) (l : List ReqItem) :
    buildItems oid lookup (l.map (setClientPrice q)) = buildItems oid lookup l := by
  induction l with
  | nil => rfl
  | cons it rest ih =>
    show buildItems oid lookup (setClientPrice q it :: rest.map (setClientPrice q)) = _
    simp only [buildItems, setClientPrice, ih]

theorem orderLookup_map_setClientPrice (db : DB) (tid : String) (q : Option Int)
    (l : List ReqItem) :
    orderLookup db tid (l.map (setClientPrice q)) = orderLookup db tid l := by
  unfold orderLookup
  rw [map_productId_setClientPrice]

theorem createOrder_map_setClientPrice (db : DB) (nid tid tbl : String)
    (q : Option Int) (l : List ReqItem) (total : Int) :
    createOrder db nid tid tbl (l.map (setClientPrice q)) total
      = createOrder db nid tid tbl l total := by
  unfold createOrder
  rw [orderLookup_map_setClientPrice, buildItems_map_setClientPrice]
  simp only [List.map_eq_nil_iff]

theorem addItems_map_setClientPrice (db : DB) (oid : String) (q : Option Int)
    (l : List ReqItem) (addl : Int) :
    addItemsToOrder db oid (l.map (setClientPrice q)) addl
      = addItemsToOrder db oid l addl := by
  unfold addItemsToOrder
  simp only [List.map_eq_nil_iff, orderLookup_map_setClientPrice,
    buildItems_map_setClientPrice]

theorem joinRoomAuth_unauthenticated_rejected (c : Conn) (tid : String)
    (hguest : c.authenticated = false) :
    (joinRoomAuth c tid).1 = c ∧
    (joinRoomAuth c tid).2 =
      [{ event := "error",
         message := "Authentication required to join tenant room" }] := by
  unfold joinRoomAuth
  rw [if_pos hguest]
  exact ⟨rfl, rfl⟩

theorem joinRoomAuth_sound (c : Conn) (tid : String) :
    (joinRoomAuth c tid).1.connected = c.connected ∧
    (tid ∈ (joinRoomAuth c tid).1.rooms →
      tid ∈ c.rooms ∨ (c.authenticated = true ∧ c.tenantId = some tid)) := by
  unfold joinRoomAuth
  split
  · exact ⟨rfl, fun h => Or.inl h⟩
  · split
    · exact ⟨rfl, fun h => Or.inl h⟩
    · next hb hn =>
      refine ⟨rfl, fun h => Or.inr ⟨eq_true_of_ne_false hb, not_not.mp hn⟩⟩

/-- C1: in the code, updateOrderStatus emits order_updated through ``io.emit``,
a global broadcast: the event is received by a connection joined only to the
rooms of a different tenant t2, refuting tenant isolation of order events;
and addItemsToOrder emits order_updated only to the tenant dashboard room, so
a connection joined only to the guest room of the owning tenant does not
receive it. -/
theorem C1_order_updated_global_broadcast_leaks :
    ((updateOrderStatus demoDB "o1" "CONFIRMED" "t1").events.map
        (fun e => (e.event, e.room, deliveredTo e ["t2"])))
      = [("order_updated", none, true)] ∧
    ((addItemsToOrder demoDB "o1" [⟨"p1", 1, none, none⟩] 8500).events.map
        (fun e => (e.event, e.room, deliveredTo e ["guest:t1"])))
      = [("order_updated", some "t1", false)] := by
  decide

/-- C2: the legacy join_room handler (src/src/index.ts) joins an
unauthenticated guest connection to the tenant room it asks for, with no
error event, contradicting the join-authorization claim. -/
theorem C2_legacy_join_room_admits_guest :
    guestConn.authenticated = false ∧
    "t2" ∈ (joinRoomLegacy guestConn "t2").1.rooms ∧
    (joinRoomLegacy guestConn "t2").2 = [] := by
  decide

/-- C3 counterexample: on an order in terminal status DONE, updateOrderStatus
back to PENDING succeeds (okOrder) and the stored order becomes PENDING,
instead of being rejected with a state-conflict error. -/
theorem C3_done_to_pending_accepted :
    (resultOrder (updateOrderStatus doneDB "o1" "PENDING" "t1").res).map
        (fun o => o.status) = some "PENDING" ∧
    (findOrder (updateOrderStatus doneDB "o1" "PENDING" "t1").db "o1").map
        (fun o => o.status) = some "PENDING" := by
  decide

/-- C3 (amended): updateOrderStatus validates only that the new status is one
of PENDING, CONFIRMED, DONE, CANCELLED and that the order belongs to the
tenant; it then overwrites the status unconditionally, with no transition
check against the current status. -/
theorem C3_update_status_unconditional_overwrite (db : DB) (id status tid : String)
    (order : Order) (hfind : findOrderOwned db id tid = some order)
    (hvalid : status ∈ validStatuses) :
    (updateOrderStatus db id status tid).res
        = ApiResult.okOrder { order with status := status } ∧
    (updateOrderStatus db id status tid).db.orders
        = db.orders.map
            (fun o => if o.id = id then { order with status := status } else o) ∧
    (updateOrderStatus db id status tid).events
        = [⟨none, "order_updated", Payload.order { order with status := status }⟩] := by
  have hne : ¬(status = "" ∨ status ∉ validStatuses) := by
    rintro (rfl | h)
    · exact absurd hvalid (by decide)
    · exact h hvalid
  unfold updateOrderStatus
  rw [if_neg hne, hfind]
  exact ⟨rfl, rfl, rfl⟩

/-- Witness for the amended C3 theorem at a concrete DONE order. -/
theorem C3_update_status_unconditional_overwrite_witness :
    findOrderOwned doneDB "o1" "t1"
        = some ⟨"o1", "t1", "Table 1", "DONE", 8500,
                [⟨"o1", "Spring Rolls", 1, 8500, none⟩]⟩ ∧
    "PENDING" ∈ validStatuses ∧
    (updateOrderStatus doneDB "o1" "PENDING" "t1").res
        = ApiResult.okOrder ⟨"o1", "t1", "Table 1", "PENDING", 8500,
            [⟨"o1", "Spring Rolls", 1, 8500, none⟩]⟩ :=
  ⟨by decide, by decide,
   (C3_update_status_unconditional_overwrite doneDB "o1" "PENDING" "t1"
      ⟨"o1", "t1", "Table 1", "DONE", 8500, [⟨"o1", "Spring Rolls", 1, 8500, none⟩]⟩
      (by decide) (by decide)).1⟩

/-- C10: because the presence check uses JavaScript truthiness, a createOrder
request with total 0 and an addItems request with additionalTotal 0 are
rejected as Missing required fields, leaving the database unchanged and
emitting nothing. -/
theorem C10_zero_total_treated_as_missing (db : DB) (nid tid tbl oid : String)
    (items : List ReqItem) :
    createOrder db nid tid tbl items 0
        = { db := db, res := ApiResult.badRequest "Missing required fields",
            events := [] } ∧
    addItemsToOrder db oid items 0
        = { db := db, res := ApiResult.badRequest "Missing required fields",
            events := [] } := by
  constructor
  · unfold createOrder
    rw [if_pos (Or.inr (Or.inr (Or.inr rfl)))]
  · unfold addItemsToOrder
    rw [if_pos (Or.inr rfl)]

/-- C4: createOrder atomicity.  Under the request-shape validation and an
existing tenant: if any referenced product is missing from the set of
products owned by the tenant and flagged available, the transaction aborts
(the thrown validation error surfaces as the 500 Failed-to-create-order
response), the database is unchanged and no event is emitted; otherwise a
fully-formed PENDING order carrying all the items and the given total is
appended to the store. -/
theorem C4_createOrder_atomicity (db : DB) (nid tid tbl : String)
    (items : List ReqItem) (total : Int) (t : Tenant)
    (h1 : tid ≠ "") (h2 : tbl ≠ "") (h3 : items ≠ []) (h4 : total ≠ 0)
    (ht : findTenant db tid = some t) :
    ((∃ it ∈ items, orderLookup db tid items it.productId = none) →
        createOrder db nid tid tbl items total =
          { db := db, res := ApiResult.serverError "Failed to create order",
            events := [] }) ∧
    ((∀ it ∈ items, (orderLookup db tid items it.productId).isSome) →
        ∃ o, (createOrder db nid tid tbl items total).db.orders
              = db.orders ++ [o] ∧
          o.status = "PENDING" ∧ o.total = total ∧
          o.items.length = items.length ∧
          (createOrder db nid tid tbl items total).res = ApiResult.okOrder o) := by
  have hguard : ¬(tid = "" ∨ tbl = "" ∨ items = [] ∨ total = 0) := by
    rintro (h | h | h | h)
    · exact h1 h
    · exact h2 h
    · exact h3 h
    · exact h4 h
  constructor
  · intro hmiss
    obtain ⟨msg, hmsg⟩ := @buildItems_error_of_missing nid (orderLookup db tid items) items hmiss
    unfold createOrder
    rw [if_neg hguard, ht, hmsg]
  · intro hall
    obtain ⟨out, hout, hlen⟩ := @buildItems_ok_of_all_found nid (orderLookup db tid items) items hall
    unfold createOrder
    rw [if_neg hguard, ht, hout]
    exact ⟨_, rfl, rfl, rfl, hlen, rfl⟩

/-- Witness for C4: a valid request persists a PENDING order; a request
naming an unknown product leaves the database untouched, answers the
transaction-abort error and emits nothing. -/
theorem C4_createOrder_atomicity_witness :
    (createOrder demoDB "o2" "t1" "Table 1" [⟨"p1", 1, none, none⟩] 8500).res
        = ApiResult.okOrder ⟨"o2", "t1", "Table 1", "PENDING", 8500,
            [⟨"o2", "Spring Rolls", 1, 8500, none⟩]⟩ ∧
    createOrder demoDB "o2" "t1" "Table 2" [⟨"p-missing", 1, none, none⟩] 500
        = { db := demoDB, res := ApiResult.serverError "Failed to create order",
            events := [] } :=
  ⟨by decide,
   (C4_createOrder_atomicity demoDB "o2" "t1" "Table 2"
      [⟨"p-missing", 1, none, none⟩] 500 ⟨"t1", "pho-one"⟩
      (by decide) (by decide) (by decide) (by decide) (by decide)).1
     (by decide)⟩

/-- C6 counterexample: with the only product priced 8500 in the database, a
createOrder request claiming total 999 is accepted: the stored order has
total 999 while the sum of item price times quantity is 8500, so the
mismatched client-supplied total is stored rather than rejected. -/
theorem C6_mismatched_total_stored :
    (resultOrder (createOrder demoDB "o9" "t1" "Table 1"
          [⟨"p1", 1, some 8500, none⟩] 999).res).map
        (fun o => (o.total, itemsTotal o.items)) = some (999, 8500) ∧
    (999 : Int) ≠ 8500 := by
  decide

/-- C6 (amended): the totals are trusted, not validated: a successful
createOrder stores exactly the client-supplied total, and a successful
addItems stores exactly the previous total plus the client-supplied
additionalTotal, with no comparison against the sum of item price times
quantity. -/
theorem C6_totals_stored_untrusted (db : DB) (nid tid tbl oid : String)
    (items : List ReqItem) (total addl : Int) :
    (∀ o, (createOrder db nid tid tbl items total).res = ApiResult.okOrder o →
        o.total = total) ∧
    (∀ o exo, findOrder db oid = some exo →
        (addItemsToOrder db oid items addl).res = ApiResult.okOrder o →
        o.total = exo.total + addl) := by
  constructor
  · intro o hres
    unfold createOrder at hres
    split at hres
    · simp at hres
    · split at hres
      · simp at hres
      · split at hres
        · simp at hres
        · simp only [ApiResult.okOrder.injEq] at hres
          rw [← hres]
  · intro o exo hfind hres
    unfold addItemsToOrder at hres
    split at hres
    · simp at hres
    · split at hres
      · simp at hres
      · next heq =>
        rw [hfind] at heq
        simp only [Option.some.injEq] at heq
        split at hres
        · simp at hres
        · split at hres
          · simp at hres
          · simp only [ApiResult.okOrder.injEq] at hres
            rw [← hres, ← heq]

/-- Witness for the amended C6 theorem: the concrete mismatched createOrder
stores total 999, and a concrete addItems increments the stored total by the
client-supplied 700. -/
theorem C6_totals_stored_untrusted_witness :
    (createOrder demoDB "o9" "t1" "Table 1" [⟨"p1", 1, none, none⟩] 999).res
        = ApiResult.okOrder ⟨"o9", "t1", "Table 1", "PENDING", 999,
            [⟨"o9", "Spring Rolls", 1, 8500, none⟩]⟩ ∧
    (⟨"o9", "t1", "Table 1", "PENDING", 999,
        [⟨"o9", "Spring Rolls", 1, 8500, none⟩]⟩ : Order).total = 999 ∧
    findOrder demoDB "o1"
        = some ⟨"o1", "t1", "Table 1", "PENDING", 8500,
            [⟨"o1", "Spring Rolls", 1, 8500, none⟩]⟩ ∧
    (addItemsToOrder demoDB "o1" [⟨"p1", 2, none, none⟩] 700).res
        = ApiResult.okOrder ⟨"o1", "t1", "Table 1", "PENDING", 9200,
            [⟨"o1", "Spring Rolls", 1, 8500, none⟩,
             ⟨"o1", "Spring Rolls", 2, 8500, none⟩]⟩ ∧
    (9200 : Int) = 8500 + 700 :=
  ⟨by decide,
   (C6_totals_stored_untrusted demoDB "o9" "t1" "Table 1" "o1"
      [⟨"p1", 1, none, none⟩] 999 700).1 _ (by decide),
   by decide, by decide,
   (C6_totals_stored_untrusted demoDB "o9" "t1" "Table 1" "o1"
      [⟨"p1", 2, none, none⟩] 999 700).2
      ⟨"o1", "t1", "Table 1", "PENDING", 9200,
        [⟨"o1", "Spring Rolls", 1, 8500, none⟩,
         ⟨"o1", "Spring Rolls", 2, 8500, none⟩]⟩
      ⟨"o1", "t1", "Table 1", "PENDING", 8500,
        [⟨"o1", "Spring Rolls", 1, 8500, none⟩]⟩ (by decide) (by decide)⟩

/-- C7: addItems precondition and atomicity.  With a non-empty item list and
a non-zero additionalTotal, on an order that exists: if its status is not
PENDING the call answers the state-conflict error and changes nothing; and
any successful call implies the order was PENDING, appended exactly the
requested number of items, and incremented the total by additionalTotal. -/
theorem C7_addItems_requires_pending (db : DB) (oid : String) (items : List ReqItem)
    (addl : Int) (exo : Order) (hne : items ≠ []) (hat : addl ≠ 0)
    (hfind : findOrder db oid = some exo) :
    (exo.status ≠ "PENDING" →
        addItemsToOrder db oid items addl =
          { db := db,
            res := ApiResult.badRequest
              "Cannot add items to order. Order status is not PENDING",
            events := [] }) ∧
    (∀ o, (addItemsToOrder db oid items addl).res = ApiResult.okOrder o →
        exo.status = "PENDING" ∧
        (∃ newItems, o.items = exo.items ++ newItems ∧
          newItems.length = items.length) ∧
        o.total = exo.total + addl) := by
  have hguard : ¬(items = [] ∨ addl = 0) := by
    rintro (h | h)
    · exact hne h
    · exact hat h
  constructor
  · intro hstat
    unfold addItemsToOrder
    rw [if_neg hguard, hfind]
    simp only []
    rw [if_pos hstat]
  · intro o hres
    unfold addItemsToOrder at hres
    split at hres
    · simp at hres
    · split at hres
      · simp at hres
      · next ex heq =>
        rw [hfind] at heq
        simp only [Option.some.injEq] at heq
        split at hres
        · simp at hres
        · next hstat =>
          split at hres
          · simp at hres
          · next hout =>
            simp only [ApiResult.okOrder.injEq] at hres
            rw [← hres, heq]
            exact ⟨not_not.mp (heq ▸ hstat),
              ⟨_, rfl, buildItems_ok_length hout⟩, rfl⟩

/-- Witness for C7: on the concrete CONFIRMED order the call is rejected with
the state-conflict error and nothing changes; on the concrete PENDING order
the call succeeds, appending one item and adding 700 to the total. -/
theorem C7_addItems_requires_pending_witness :
    ("CONFIRMED" : String) ≠ "PENDING" ∧
    addItemsToOrder confirmedDB "o1" [⟨"p1", 1, none, none⟩] 700
        = { db := confirmedDB,
            res := ApiResult.badRequest
              "Cannot add items to order. Order status is not PENDING",
            events := [] } ∧
    (addItemsToOrder demoDB "o1" [⟨"p1", 2, none, none⟩] 700).res
        = ApiResult.okOrder ⟨"o1", "t1", "Table 1", "PENDING", 9200,
            [⟨"o1", "Spring Rolls", 1, 8500, none⟩,
             ⟨"o1", "Spring Rolls", 2, 8500, none⟩]⟩ ∧
    ((⟨"o1", "t1", "Table 1", "PENDING", 9200,
        [⟨"o1", "Spring Rolls", 1, 8500, none⟩,
         ⟨"o1", "Spring Rolls", 2, 8500, none⟩]⟩ : Order)).total = 8500 + 700 :=
  ⟨by decide,
   (C7_addItems_requires_pending confirmedDB "o1" [⟨"p1", 1, none, none⟩] 700
      ⟨"o1", "t1", "Table 1", "CONFIRMED", 8500,
        [⟨"o1", "Spring Rolls", 1, 8500, none⟩]⟩
      (by decide) (by decide) (by decide)).1 (by decide),
   by decide,
   ((C7_addItems_requires_pending demoDB "o1" [⟨"p1", 2, none, none⟩] 700
      ⟨"o1", "t1", "Table 1", "PENDING", 8500,
        [⟨"o1", "Spring Rolls", 1, 8500, none⟩]⟩
      (by decide) (by decide) (by decide)).2
      ⟨"o1", "t1", "Table 1", "PENDING", 9200,
        [⟨"o1", "Spring Rolls", 1, 8500, none⟩,
         ⟨"o1", "Spring Rolls", 2, 8500, none⟩]⟩ (by decide)).2.2⟩

/-- C5: price snapshot.  Both createOrder and addItemsToOrder are invariant
under any rewriting of the client-supplied price field (the controllers never
read it), and every item stored by a successful call carries the name and
price of a product record of the owning tenant, flagged available, from the
database. -/
theorem C5_price_snapshot (db : DB) (nid tid tbl oid : String) (items : List ReqItem)
    (total addl : Int) (q : Option Int) :
    createOrder db nid tid tbl (items.map (setClientPrice q)) total
        = createOrder db nid tid tbl items total ∧
    addItemsToOrder db oid (items.map (setClientPrice q)) addl
        = addItemsToOrder db oid items addl ∧
    (∀ o, (createOrder db nid tid tbl items total).res = ApiResult.okOrder o →
        ∀ itm ∈ o.items, ∃ p ∈ db.products,
          p.tenantId = tid ∧ p.isAvailable = true ∧
          itm.productName = p.name ∧ itm.price = p.price) ∧
    (∀ o exo, findOrder db oid = some exo →
        (addItemsToOrder db oid items addl).res = ApiResult.okOrder o →
        ∀ itm ∈ o.items, itm ∈ exo.items ∨ ∃ p ∈ db.products,
          p.tenantId = exo.tenantId ∧ p.isAvailable = true ∧
          itm.productName = p.name ∧ itm.price = p.price) := by
  refine ⟨createOrder_map_setClientPrice db nid tid tbl q items total,
    addItems_map_setClientPrice db oid q items addl, ?_, ?_⟩
  · intro o hres itm hitm
    unfold createOrder at hres
    split at hres
    · simp at hres
    · split at hres
      · simp at hres
      · split at hres
        · simp at hres
        · next out hout =>
          simp only [ApiResult.okOrder.injEq] at hres
          rw [← hres] at hitm
          obtain ⟨pid, p, hp, hname, hprice⟩ := buildItems_ok_mem hout itm hitm
          obtain ⟨hmem, htid, havail⟩ := productLookup_spec hp
          exact ⟨p, hmem, htid, havail, hname, hprice⟩
  · intro o exo hfind hres itm hitm
    unfold addItemsToOrder at hres
    split at hres
    · simp at hres
    · split at hres
      · simp at hres
      · next ex heq =>
        rw [hfind] at heq
        simp only [Option.some.injEq] at heq
        subst heq
        split at hres
        · simp at hres
        · split at hres
          · simp at hres
          · next out hout =>
            simp only [ApiResult.okOrder.injEq] at hres
            rw [← hres] at hitm
            rcases List.mem_append.mp hitm with hmem | hmem
            · exact Or.inl hmem
            · obtain ⟨pid, p, hp, hname, hprice⟩ := buildItems_ok_mem hout itm hmem
              obtain ⟨hpm, htid, havail⟩ := productLookup_spec hp
              exact Or.inr ⟨p, hpm, htid, havail, hname, hprice⟩

/-- Witness for C5: a concrete request carrying a tampered client price of 1
produces the same result as the untampered request, and the stored item
price is the database price 8500. -/
theorem C5_price_snapshot_witness :
    createOrder demoDB "o3" "t1" "Table 1"
        ([⟨"p1", 1, none, none⟩].map (setClientPrice (some 1))) 8500
      = createOrder demoDB "o3" "t1" "Table 1" [⟨"p1", 1, none, none⟩] 8500 ∧
    (createOrder demoDB "o3" "t1" "Table 1" [⟨"p1", 1, none, none⟩] 8500).res
      = ApiResult.okOrder ⟨"o3", "t1", "Table 1", "PENDING", 8500,
          [⟨"o3", "Spring Rolls", 1, 8500, none⟩]⟩ ∧
    (∀ itm ∈ [(⟨"o3", "Spring Rolls", 1, 8500, none⟩ : OrderItem)],
      ∃ p ∈ demoDB.products, p.tenantId = "t1" ∧ p.isAvailable = true ∧
        itm.productName = p.name ∧ itm.price = p.price) :=
  ⟨(C5_price_snapshot demoDB "o3" "t1" "Table 1" "o1" [⟨"p1", 1, none, none⟩]
      8500 700 (some 1)).1,
   by decide,
   (C5_price_snapshot demoDB "o3" "t1" "Table 1" "o1" [⟨"p1", 1, none, none⟩]
      8500 700 (some 1)).2.2.1
     ⟨"o3", "t1", "Table 1", "PENDING", 8500,
       [⟨"o3", "Spring Rolls", 1, 8500, none⟩]⟩ (by decide)⟩

/-- C8: a successful createOrder publishes exactly one event, a new_order
aimed at the room named by the tenant id, and room-scoped delivery reaches a
connection exactly when the tenant room is among the rooms it joined. -/
theorem C8_new_order_scope (db : DB) (nid tid tbl : String) (items : List ReqItem)
    (total : Int) (o : Order)
    (hres : (createOrder db nid tid tbl items total).res = ApiResult.okOrder o) :
    (createOrder db nid tid tbl items total).events
        = [⟨some tid, "new_order", Payload.order o⟩] ∧
    ∀ rooms : List String,
      deliveredTo ⟨some tid, "new_order", Payload.order o⟩ rooms
        = rooms.contains tid := by
  unfold createOrder at hres
  split at hres
  · simp at hres
  · next hc =>
    split at hres
    · simp at hres
    · next t heq =>
      split at hres
      · simp at hres
      · next out hout =>
        simp only [ApiResult.okOrder.injEq] at hres
        constructor
        · unfold createOrder
          rw [if_neg hc, heq]
          simp only []
          rw [hout]
          simp only []
          rw [hres]
        · intro rooms
          rfl

/-- Witness for C8: the concrete successful createOrder emits exactly one
new_order to room t1; a connection in room t1 receives it, while connections
only in guest:t1 or in rooms of tenant t2 do not. -/
theorem C8_new_order_scope_witness :
    (createOrder demoDB "o4" "t1" "Table 1" [⟨"p1", 1, none, none⟩] 8500).res
        = ApiResult.okOrder ⟨"o4", "t1", "Table 1", "PENDING", 8500,
            [⟨"o4", "Spring Rolls", 1, 8500, none⟩]⟩ ∧
    (createOrder demoDB "o4" "t1" "Table 1" [⟨"p1", 1, none, none⟩] 8500).events
        = [⟨some "t1", "new_order",
            Payload.order ⟨"o4", "t1", "Table 1", "PENDING", 8500,
              [⟨"o4", "Spring Rolls", 1, 8500, none⟩]⟩⟩] ∧
    deliveredTo ⟨some "t1", "new_order",
        Payload.order ⟨"o4", "t1", "Table 1", "PENDING", 8500,
          [⟨"o4", "Spring Rolls", 1, 8500, none⟩]⟩⟩ ["t1"] = true ∧
    deliveredTo ⟨some "t1", "new_order",
        Payload.order ⟨"o4", "t1", "Table 1", "PENDING", 8500,
          [⟨"o4", "Spring Rolls", 1, 8500, none⟩]⟩⟩ ["guest:t1"] = false ∧
    deliveredTo ⟨some "t1", "new_order",
        Payload.order ⟨"o4", "t1", "Table 1", "PENDING", 8500,
          [⟨"o4", "Spring Rolls", 1, 8500, none⟩]⟩⟩ ["t2", "guest:t2"] = false :=
  ⟨by decide,
   (C8_new_order_scope demoDB "o4" "t1" "Table 1" [⟨"p1", 1, none, none⟩] 8500
      ⟨"o4", "t1", "Table 1", "PENDING", 8500,
        [⟨"o4", "Spring Rolls", 1, 8500, none⟩]⟩ (by decide)).1,
   by decide, by decide, by decide⟩

/-- C9: markTableAsPaid on a table owned by the tenant sets its status to
LOCKED and emits table_paid and table_status_changed, each to exactly the
tenant dashboard room and the guest room of that tenant; the union of
connections reached by each event is exactly the membership of those two
rooms; a table not owned by the calling tenant yields not-found and changes
nothing. -/
theorem C9_markPaid_locks_and_scopes (db : DB) (id tid : String) :
    (findTableOwned db id tid = none →
        markTableAsPaid db id tid =
          { db := db, res := ApiResult.notFound "Table not found", events := [] }) ∧
    (∀ tbl, findTableOwned db id tid = some tbl →
        (markTableAsPaid db id tid).res
            = ApiResult.okTable { tbl with status := "LOCKED" } ∧
        (markTableAsPaid db id tid).db.tables
            = db.tables.map
                (fun t => if t.id = id then { tbl with status := "LOCKED" } else t) ∧
        (markTableAsPaid db id tid).events
            = [⟨some tid, "table_paid", Payload.table id tbl.name tid "LOCKED"⟩,
               ⟨some ("guest:" ++ tid), "table_paid",
                 Payload.table id tbl.name tid "LOCKED"⟩,
               ⟨some tid, "table_status_changed",
                 Payload.table id tbl.name tid "LOCKED"⟩,
               ⟨some ("guest:" ++ tid), "table_status_changed",
                 Payload.table id tbl.name tid "LOCKED"⟩] ∧
        (∀ rooms : List String,
          (((markTableAsPaid db id tid).events.filter
              (fun e => e.event == "table_paid")).any
                (fun e => deliveredTo e rooms))
            = (rooms.contains tid || rooms.contains ("guest:" ++ tid))) ∧
        (∀ rooms : List String,
          (((markTableAsPaid db id tid).events.filter
              (fun e => e.event == "table_status_changed")).any
                (fun e => deliveredTo e rooms))
            = (rooms.contains tid || rooms.contains ("guest:" ++ tid)))) := by
  constructor
  · intro hnone
    unfold markTableAsPaid
    rw [hnone]
  · intro tbl hfind
    unfold markTableAsPaid
    rw [hfind]
    refine ⟨rfl, rfl, rfl, ?_, ?_⟩
    · intro rooms
      simp [deliveredTo]
    · intro rooms
      simp [deliveredTo]

/-- Witness for C9: on the concrete table tb1 of tenant t1 the call locks the
table; the table_paid copies reach a guest-room member of t1 and do not
reach a connection joined only to the rooms of tenant t2; a foreign tenant
id yields not-found and no change. -/
theorem C9_markPaid_locks_and_scopes_witness :
    findTableOwned demoDB "tb1" "t1" = some ⟨"tb1", "t1", "X", "ACTIVE"⟩ ∧
    (markTableAsPaid demoDB "tb1" "t1").res
        = ApiResult.okTable ⟨"tb1", "t1", "X", "LOCKED"⟩ ∧
    (((markTableAsPaid demoDB "tb1" "t1").events.filter
        (fun e => e.event == "table_paid")).any
          (fun e => deliveredTo e ["guest:t1"])) = true ∧
    (((markTableAsPaid demoDB "tb1" "t1").events.filter
        (fun e => e.event == "table_paid")).any
          (fun e => deliveredTo e ["t2", "guest:t2"])) = false ∧
    findTableOwned demoDB "tb1" "t2" = none ∧
    markTableAsPaid demoDB "tb1" "t2"
        = { db := demoDB, res := ApiResult.notFound "Table not found",
            events := [] } :=
  ⟨by decide,
   ((C9_markPaid_locks_and_scopes demoDB "tb1" "t1").2
      ⟨"tb1", "t1", "X", "ACTIVE"⟩ (by decide)).1,
   by decide, by decide, by decide,
   (C9_markPaid_locks_and_scopes demoDB "tb1" "t2").1 (by decide)⟩

end QRBackend
